import Mathlib

/-! Window geometry and presentation state tracking (webview_go).

A shallow embedding of `window_state.go`, `webview_state_other.go` (the
fallback build) and `webview_state_windows.go` (the build with native hook
support), followed by theorems about the embedded code.

Conventions of the embedding.

* Go `int` values that are only stored and compared are `Int`; `uintptr`,
  `uint32` and handles are `Nat`.  Conversions that truncate or sign-extend
  (`uint16`, `int16`, `int32`, `uint32`) are written out explicitly.
* A `*webview` is `Option Nat`: `none` is the nil pointer and `some p` is the
  address of a window object on the heap of the `World`.
* Locks are not modelled: every function runs to completion as one atomic
  step.
* Calls into the operating system are appended to the log `World.calls`.
  Queries are answered by the oracle `OS`.  Messages the operating system
  sends back as a consequence of a call (for example after `SetWindowPos`)
  are separate deliveries to `windowProc`.
* Window procedures other than the trampoline are code outside these files and
  answer through the oracle.  A forward that reaches the trampoline itself is
  followed by `windowProcNested`, whose depth bound is the only fuel.
-/

namespace WebviewGo

/-! ## window_state.go -/

/-- The presentation mode of a window (`WindowStateType`, an `iota` enumeration). -/
inductive WindowStateType where
  | WindowStateUnknown
  | WindowStateNormal
  | WindowStateMinimized
  | WindowStateMaximized
  | WindowStateFullscreen
  deriving DecidableEq, Repr

open WindowStateType

/-- The geometry and presentation state of a window (`WindowState`). -/
structure WindowState where
  X : Int
  Y : Int
  Width : Int
  Height : Int
  State : WindowStateType
  deriving DecidableEq, Repr

/-! ## The owning window object and the world around it -/

/-- Modelled from the spec: the owning window object (`webview`), declared
outside the three source files.  It "holds the cached WindowState, ..., the
saved original message-handler reference, the saved handle, and an
installed/uninstalled flag" and exposes "a native-handle accessor"
(`w.Window()`, here the field `window`). -/
structure webview where
  window : Nat
  state : WindowState
  hookInstalled : Bool
  origWndProc : Nat
  hwnd : Nat
  deriving DecidableEq, Repr

/-- The Win32 `RECT` structure (`rect`); the fields are `int32` values. -/
structure rect where
  Left : Int
  Top : Int
  Right : Int
  Bottom : Int
  deriving DecidableEq, Repr

/-- The Win32 `WINDOWPOS` structure (`windowPos`). -/
structure windowPos where
  hwnd : Nat
  hwndInsertAfter : Nat
  x : Int
  y : Int
  cx : Int
  cy : Int
  flags : Nat
  deriving DecidableEq, Repr

/-- One call issued to the operating system, with its arguments as passed. -/
inductive OsCall where
  | SetWindowPos (hwnd insertAfter x y cx cy flags : Nat)
  | SetWindowLongPtrW (hwnd index value : Nat)
  | CallWindowProcW (orig hwnd msg wparam lparam : Nat)
  | DefWindowProcW (hwnd msg wparam lparam : Nat)
  deriving DecidableEq, Repr

/-- Answers of the operating system to the queries the code makes, and the
address of the trampoline (`windowProcCallback`).  A query that fails is
`none`; `GetWindowLongPtrW` and `MonitorFromWindow` return a raw value. -/
structure OS where
  windowProcCallback : Nat
  getWindowRect : Nat → Option rect
  getWindowPlacement : Nat → Option Nat
  getWindowLongPtr : Nat → Nat → Nat
  monitorFromWindow : Nat → Nat → Nat
  getMonitorInfo : Nat → Option rect
  callWindowProc : Nat → Nat → Nat → Nat → Nat → Nat
  defWindowProc : Nat → Nat → Nat → Nat → Nat
  windowPosAt : Nat → windowPos

/-- The mutable state the code works on: the heap of window objects, the
process-wide registry `windowSubclass` (handle, window object), the window
procedure currently installed on each existing native window, the thread's
last-error value, and the log of calls made to the operating system. -/
structure World where
  heap : Nat → webview
  windowSubclass : List (Nat × Nat)
  wndProcs : Nat → Option Nat
  lastError : Nat
  calls : List OsCall

/-- Modelled from the spec: `updateCachedState(mutator)` "applies an arbitrary
read-modify-write mutation to the cached WindowState" of the window object; the
method is declared outside the three source files. -/
def updateCachedState (world : World) (w : Nat) (mutator : WindowState → WindowState) : World :=
  let obj := world.heap w
  let obj := { obj with state := mutator obj.state }
  { world with heap := Function.update world.heap w obj }

/-- The cached state of the window object at address `w`. -/
def cached (world : World) (w : Nat) : WindowState := (world.heap w).state

/-! ## webview_state_other.go (the fallback build) -/

namespace Other

/-- The function `getWindowState(*webview) WindowState`. -/
def getWindowState (_w : Option Nat) : WindowState :=
  { X := 0, Y := 0, Width := 0, Height := 0, State := WindowStateUnknown }

/-- The closure `setWindowPosition` passes to `updateCachedState`. -/
def setWindowPositionMutator (x y : Int) (state : WindowState) : WindowState :=
  let state := { state with X := x }
  let state := { state with Y := y }
  if state.State = WindowStateUnknown then { state with State := WindowStateNormal } else state

/-- The function `setWindowPosition(w *webview, x, y int)`. -/
def setWindowPosition (world : World) (w : Option Nat) (x y : Int) : World :=
  match w with
  | none => world
  | some p => updateCachedState world p (setWindowPositionMutator x y)

/-- The closure `setWindowSize` passes to `updateCachedState`. -/
def setWindowSizeMutator (width height : Int) (state : WindowState) : WindowState :=
  let state := if width > 0 then { state with Width := width } else state
  let state := if height > 0 then { state with Height := height } else state
  if state.State = WindowStateUnknown ∧ state.Width > 0 ∧ state.Height > 0 then
    { state with State := WindowStateNormal }
  else state

/-- The function `setWindowSize(w *webview, width, height int)`. -/
def setWindowSize (world : World) (w : Option Nat) (width height : Int) : World :=
  match w with
  | none => world
  | some p => updateCachedState world p (setWindowSizeMutator width height)

/-- The function `ensureWindowHook(*webview)`, whose body is empty. -/
def ensureWindowHook (world : World) (_w : Option Nat) : World := world

/-- The function `removeWindowHook(*webview)`, whose body is empty. -/
def removeWindowHook (world : World) (_w : Option Nat) : World := world

end Other

/-! ## webview_state_windows.go (the build with native hook support) -/

namespace Windows

def swShowMaximized : Nat := 3
def swShowMinimized : Nat := 2
def swShowMinNoActive : Nat := 7
def monitorDefaultToNearest : Nat := 2
def gwlStyle : Int := -16
def wsOverlappedWindow : Nat := 0x00CF0000
def swpNoSize : Nat := 0x0001
def swpNoMove : Nat := 0x0002
def swpNoZOrder : Nat := 0x0004
def swpNoActivate : Nat := 0x0010
def wmDestroy : Nat := 0x0002
def wmNCDestroy : Nat := 0x0082
def wmMove : Nat := 0x0003
def wmSize : Nat := 0x0005
def wmWindowPosChanged : Nat := 0x0047
def sizeRestored : Nat := 0
def sizeMinimized : Nat := 1
def sizeMaximized : Nat := 2
def gwlWndProc : Int := -4

/-- The error `ERROR_INVALID_WINDOW_HANDLE` reported for a handle that names no window. -/
def errorInvalidWindowHandle : Nat := 1400

/-- The conversion `uintptr(z)` of a signed integer (64-bit build). -/
def toUintptr (z : Int) : Nat := (z % 2 ^ 64).toNat

/-- The conversion `uint32(n)`. -/
def uint32 (n : Nat) : Nat := n % 2 ^ 32

/-- The conversion `uint16(n)`. -/
def uint16 (n : Nat) : Nat := n % 2 ^ 16

/-- The conversion `int16(v)` of a `uint16` value: two's complement reinterpretation. -/
def int16 (v : Nat) : Int := if v % 2 ^ 16 < 2 ^ 15 then (v % 2 ^ 16 : Nat) else (v % 2 ^ 16 : Nat) - 2 ^ 16

/-- The result of an `int32` operation whose exact value is `z`: wrap-around into 32 bits. -/
def wrapInt32 (z : Int) : Int := (z + 2 ^ 31) % 2 ^ 32 - 2 ^ 31

/-- The function `toUintptrIndex(index int32)`, that is `uintptr(uint32(index))`. -/
def toUintptrIndex (index : Int) : Nat := (index % 2 ^ 32).toNat

/-- Lookup `windowSubclass[hwnd]`; `none` is the nil pointer a missing key gives. -/
def registryGet (reg : List (Nat × Nat)) (hwnd : Nat) : Option Nat :=
  (reg.find? (fun e => e.1 == hwnd)).map (fun e => e.2)

/-- The assignment `windowSubclass[hwnd] = w`: any earlier entry of the key is replaced. -/
def registrySet (reg : List (Nat × Nat)) (hwnd w : Nat) : List (Nat × Nat) :=
  (hwnd, w) :: reg.filter (fun e => e.1 != hwnd)

/-- The statement `delete(windowSubclass, hwnd)`. -/
def registryDelete (reg : List (Nat × Nat)) (hwnd : Nat) : List (Nat × Nat) :=
  reg.filter (fun e => e.1 != hwnd)

/-- The number of registry entries stored under the handle. -/
def registryCount (reg : List (Nat × Nat)) (hwnd : Nat) : Nat :=
  (reg.filter (fun e => e.1 == hwnd)).length

/-- Modelled from the spec: the platform primitive behind
`procSetWindowLongPtrW.Call(hwnd, GWLP_WNDPROC, value)`, which "atomically swaps
the window's message handler pointer ..., recording the previous handler"; the
swap fails when "the platform reports an error and the previous value was
null".  The result is the world after the call, the previous handler and the
error number Go reads back (the thread's last-error value, which a successful
call leaves as it was). -/
def callSetWindowLongPtr (world : World) (hwnd index value : Nat) : World × Nat × Nat :=
  let world := { world with calls := world.calls ++ [OsCall.SetWindowLongPtrW hwnd index value] }
  match world.wndProcs hwnd with
  | none => ({ world with lastError := errorInvalidWindowHandle }, 0, errorInvalidWindowHandle)
  | some previous =>
    ({ world with wndProcs := Function.update world.wndProcs hwnd (some value) },
      previous, world.lastError)

/-- The function `ensureWindowHook(w *webview)`. -/
def ensureWindowHook (os : OS) (world : World) (w : Option Nat) : World :=
  match w with
  | none => world
  | some p =>
    let hwnd := (world.heap p).window
    if hwnd = 0 then world
    else if (world.heap p).hookInstalled then world
    else
      let r := callSetWindowLongPtr world hwnd (toUintptrIndex gwlWndProc) os.windowProcCallback
      let world := r.1
      let orig := r.2.1
      let errno := r.2.2
      if orig = 0 ∧ errno ≠ 0 then world
      else
        let obj := world.heap p
        let obj := { obj with origWndProc := orig, hwnd := hwnd, hookInstalled := true }
        let world := { world with heap := Function.update world.heap p obj }
        { world with windowSubclass := registrySet world.windowSubclass hwnd p }

/-- The function `removeWindowHook(w *webview)`. -/
def removeWindowHook (world : World) (w : Option Nat) : World :=
  match w with
  | none => world
  | some p =>
    if !(world.heap p).hookInstalled then world
    else
      let hwnd := (world.heap p).hwnd
      let world :=
        if hwnd ≠ 0 ∧ (world.heap p).origWndProc ≠ 0 then
          (callSetWindowLongPtr world hwnd (toUintptrIndex gwlWndProc) (world.heap p).origWndProc).1
        else world
      let world := { world with windowSubclass := registryDelete world.windowSubclass hwnd }
      let obj := world.heap p
      let obj := { obj with hookInstalled := false, origWndProc := 0, hwnd := 0 }
      { world with heap := Function.update world.heap p obj }

/-- The show-command translation of `getWindowState` (the `switch placement.ShowCmd`). -/
def showCmdState (showCmd : Nat) : WindowStateType :=
  if showCmd = swShowMaximized then WindowStateMaximized
  else if showCmd = swShowMinimized ∨ showCmd = swShowMinNoActive then WindowStateMinimized
  else WindowStateNormal

/-- The part of `getWindowState` after the hook has been ensured and the handle
found non-zero: the queries and the fullscreen heuristic. -/
def queryWindowState (os : OS) (hwnd : Nat) : WindowState :=
  let state : WindowState :=
    { X := 0, Y := 0, Width := 0, Height := 0, State := WindowStateUnknown }
  let state :=
    match os.getWindowRect hwnd with
    | some r =>
      { state with X := r.Left, Y := r.Top,
                   Width := wrapInt32 (r.Right - r.Left), Height := wrapInt32 (r.Bottom - r.Top) }
    | none => state
  let state :=
    match os.getWindowPlacement hwnd with
    | some showCmd => { state with State := showCmdState showCmd }
    | none =>
      if state.State = WindowStateUnknown then { state with State := WindowStateNormal } else state
  if state.State ≠ WindowStateFullscreen then
    let style := os.getWindowLongPtr hwnd (toUintptr gwlStyle)
    if style ≠ 0 ∧ style &&& wsOverlappedWindow = 0 then
      let monitor := os.monitorFromWindow hwnd monitorDefaultToNearest
      if monitor ≠ 0 then
        match os.getMonitorInfo monitor with
        | some mon =>
          if state.Width ≥ wrapInt32 (mon.Right - mon.Left) ∧
              state.Height ≥ wrapInt32 (mon.Bottom - mon.Top) ∧
              state.X ≤ mon.Left ∧ state.Y ≤ mon.Top then
            { state with State := WindowStateFullscreen }
          else state
        | none => state
      else state
    else state
  else state

/-- The function `getWindowState(w *webview) WindowState`, for a non-nil `w`. -/
def getWindowState (os : OS) (world : World) (w : Nat) : World × WindowState :=
  let world := ensureWindowHook os world (some w)
  let hwnd := (world.heap w).window
  if hwnd = 0 then
    (world, { X := 0, Y := 0, Width := 0, Height := 0, State := WindowStateUnknown })
  else (world, queryWindowState os hwnd)

/-- The closure `setWindowPosition` passes to `updateCachedState`. -/
def setWindowPositionMutator (x y : Int) (state : WindowState) : WindowState :=
  let state := { state with X := x }
  let state := { state with Y := y }
  if state.State = WindowStateUnknown then { state with State := WindowStateNormal } else state

/-- The function `setWindowPosition(w *webview, x, y int)`. -/
def setWindowPosition (os : OS) (world : World) (w : Option Nat) (x y : Int) : World :=
  let world := ensureWindowHook os world w
  match w with
  | none => world
  | some p =>
    let world := updateCachedState world p (setWindowPositionMutator x y)
    let hwnd := (world.heap p).window
    if hwnd = 0 then world
    else
      { world with calls := world.calls ++
          [OsCall.SetWindowPos hwnd 0 (toUintptr x) (toUintptr y) 0 0
            (swpNoSize ||| swpNoZOrder ||| swpNoActivate)] }

/-- The closure `setWindowSize` passes to `updateCachedState`. -/
def setWindowSizeMutator (width height : Int) (state : WindowState) : WindowState :=
  let state := if width > 0 then { state with Width := width } else state
  let state := if height > 0 then { state with Height := height } else state
  if state.State = WindowStateUnknown ∧ state.Width > 0 ∧ state.Height > 0 then
    { state with State := WindowStateNormal }
  else state

/-- The function `setWindowSize(w *webview, width, height int)`. -/
def setWindowSize (os : OS) (world : World) (w : Option Nat) (width height : Int) : World :=
  let world := ensureWindowHook os world w
  match w with
  | none => world
  | some p =>
    let world := updateCachedState world p (setWindowSizeMutator width height)
    let hwnd := (world.heap p).window
    if hwnd = 0 ∨ width ≤ 0 ∨ height ≤ 0 then world
    else
      { world with calls := world.calls ++
          [OsCall.SetWindowPos hwnd 0 0 0 (toUintptr width) (toUintptr height)
            (swpNoMove ||| swpNoZOrder ||| swpNoActivate)] }

/-- The closure `handleSizeMessage` passes to `updateCachedState`. -/
def sizeMessageMutator (width height : Int) (newState : WindowStateType)
    (state : WindowState) : WindowState :=
  { state with Width := width, Height := height, State := newState }

/-- The function `handleSizeMessage(w *webview, wparam, lparam uintptr)`. -/
def handleSizeMessage (world : World) (w : Nat) (wparam lparam : Nat) : World :=
  let width : Int := (uint16 (lparam &&& 0xFFFF) : Nat)
  let height : Int := (uint16 ((lparam >>> 16) &&& 0xFFFF) : Nat)
  if width ≤ 0 ∨ height ≤ 0 then world
  else
    let newState :=
      if uint32 wparam = sizeMaximized then WindowStateMaximized
      else if uint32 wparam = sizeMinimized then WindowStateMinimized
      else WindowStateNormal
    updateCachedState world w (sizeMessageMutator width height newState)

/-- The closure `handleWindowPosChanged` passes to `updateCachedState`. -/
def windowPosChangedMutator (pos : windowPos) (state : WindowState) : WindowState :=
  let state :=
    if pos.flags &&& swpNoMove = 0 then
      let state := { state with X := pos.x, Y := pos.y }
      if state.State = WindowStateUnknown then { state with State := WindowStateNormal } else state
    else state
  if pos.flags &&& swpNoSize = 0 then
    let state := if pos.cx > 0 then { state with Width := pos.cx } else state
    let state := if pos.cy > 0 then { state with Height := pos.cy } else state
    if state.State = WindowStateUnknown then { state with State := WindowStateNormal } else state
  else state

/-- The function `handleWindowPosChanged(w *webview, lparam uintptr)`; the structure `lparam`
points to is read through `OS.windowPosAt`. -/
def handleWindowPosChanged (os : OS) (world : World) (w : Nat) (lparam : Nat) : World :=
  if lparam = 0 then world
  else updateCachedState world w (windowPosChangedMutator (os.windowPosAt lparam))

/-- The closure `handleMoveMessage` passes to `updateCachedState`. -/
def moveMessageMutator (x y : Int) (state : WindowState) : WindowState :=
  let state := { state with X := x, Y := y }
  if state.State = WindowStateUnknown then { state with State := WindowStateNormal } else state

/-- The function `handleMoveMessage(w *webview, lparam uintptr)`. -/
def handleMoveMessage (world : World) (w : Nat) (lparam : Nat) : World :=
  let x : Int := int16 (uint16 (lparam &&& 0xFFFF))
  let y : Int := int16 (uint16 ((lparam >>> 16) &&& 0xFFFF))
  updateCachedState world w (moveMessageMutator x y)

/-- The function `forwardWindowMessage(orig, hwnd, msg, wparam, lparam uintptr) uintptr`
when the handler it calls is code outside these files: the handler answers
through the oracle and does not call back.  The case in which `orig` is the
trampoline itself is `forwardWindowMessageNested`. -/
def forwardWindowMessage (os : OS) (world : World) (orig hwnd msg wparam lparam : Nat) :
    World × Nat :=
  if orig ≠ 0 then
    ({ world with calls := world.calls ++ [OsCall.CallWindowProcW orig hwnd msg wparam lparam] },
      os.callWindowProc orig hwnd msg wparam lparam)
  else
    ({ world with calls := world.calls ++ [OsCall.DefWindowProcW hwnd msg wparam lparam] },
      os.defWindowProc hwnd msg wparam lparam)

/-- The function `windowProc(hwnd uintptr, msg uint32, wparam, lparam uintptr) uintptr`,
the trampoline, as one activation that forwards to a handler outside these
files; `windowProcNested` also follows a forward into the trampoline itself. -/
def windowProc (os : OS) (world : World) (hwnd msg wparam lparam : Nat) : World × Nat :=
  match registryGet world.windowSubclass hwnd with
  | none => forwardWindowMessage os world 0 hwnd msg wparam lparam
  | some w =>
    let orig := (world.heap w).origWndProc
    if msg = wmSize then
      forwardWindowMessage os (handleSizeMessage world w wparam lparam) orig hwnd msg wparam lparam
    else if msg = wmWindowPosChanged then
      forwardWindowMessage os (handleWindowPosChanged os world w lparam) orig hwnd msg wparam lparam
    else if msg = wmMove then
      forwardWindowMessage os (handleMoveMessage world w lparam) orig hwnd msg wparam lparam
    else if msg = wmDestroy ∨ msg = wmNCDestroy then
      let r := forwardWindowMessage os world orig hwnd msg wparam lparam
      (removeWindowHook r.1 (some w), r.2)
    else forwardWindowMessage os world orig hwnd msg wparam lparam

/-- The function `forwardWindowMessage` with the call `CallWindowProcW(orig, ...)`
followed into the trampoline: when `orig` is `windowProcCallback` the operating
system runs `windowProc` again on the same message (`reenter`, applied to the
world in which the call has been logged); every other handler, and the default
handler, answers through the oracle.  The result `none` means that the call
does not return. -/
def forwardWindowMessageNested (os : OS) (reenter : World → Option (World × Nat))
    (world : World) (orig hwnd msg wparam lparam : Nat) : Option (World × Nat) :=
  if orig ≠ 0 then
    if orig = os.windowProcCallback then
      reenter { world with
        calls := world.calls ++ [OsCall.CallWindowProcW orig hwnd msg wparam lparam] }
    else
      some ({ world with
              calls := world.calls ++ [OsCall.CallWindowProcW orig hwnd msg wparam lparam] },
            os.callWindowProc orig hwnd msg wparam lparam)
  else
    some ({ world with calls := world.calls ++ [OsCall.DefWindowProcW hwnd msg wparam lparam] },
          os.defWindowProc hwnd msg wparam lparam)

/-- The function `windowProc` with nested activations: the first argument bounds
the depth to which the trampoline may be entered again through
`forwardWindowMessageNested`; `none` means that this depth does not suffice. -/
def windowProcNested (os : OS) :
    Nat → World → Nat → Nat → Nat → Nat → Option (World × Nat)
  | 0, _, _, _, _, _ => none
  | depth + 1, world, hwnd, msg, wparam, lparam =>
    let reenter := fun inner : World => windowProcNested os depth inner hwnd msg wparam lparam
    match registryGet world.windowSubclass hwnd with
    | none => forwardWindowMessageNested os reenter world 0 hwnd msg wparam lparam
    | some w =>
      let orig := (world.heap w).origWndProc
      if msg = wmSize then
        forwardWindowMessageNested os reenter (handleSizeMessage world w wparam lparam)
          orig hwnd msg wparam lparam
      else if msg = wmWindowPosChanged then
        forwardWindowMessageNested os reenter (handleWindowPosChanged os world w lparam)
          orig hwnd msg wparam lparam
      else if msg = wmMove then
        forwardWindowMessageNested os reenter (handleMoveMessage world w lparam)
          orig hwnd msg wparam lparam
      else if msg = wmDestroy ∨ msg = wmNCDestroy then
        match forwardWindowMessageNested os reenter world orig hwnd msg wparam lparam with
        | none => none
        | some r => some (removeWindowHook r.1 (some w), r.2)
      else forwardWindowMessageNested os reenter world orig hwnd msg wparam lparam

end Windows

/-! ## Sequences of operations -/

namespace Other

/-- One call of the fallback build. -/
inductive Event where
  | setWindowPosition (w : Option Nat) (x y : Int)
  | setWindowSize (w : Option Nat) (width height : Int)
  | ensureWindowHook (w : Option Nat)
  | removeWindowHook (w : Option Nat)

/-- The effect of one call of the fallback build on the world. -/
def step (world : World) : Event → World
  | .setWindowPosition w x y => setWindowPosition world w x y
  | .setWindowSize w width height => setWindowSize world w width height
  | .ensureWindowHook w => ensureWindowHook world w
  | .removeWindowHook w => removeWindowHook world w

/-- The effect of a sequence of calls, first to last. -/
def run (world : World) (events : List Event) : World := events.foldl step world

end Other

namespace Windows

/-- One call into the Windows build: a setter, a query, a hook operation, or
the delivery of a message to the trampoline. -/
inductive Event where
  | setWindowPosition (w : Option Nat) (x y : Int)
  | setWindowSize (w : Option Nat) (width height : Int)
  | getWindowState (w : Nat)
  | ensureWindowHook (w : Option Nat)
  | removeWindowHook (w : Option Nat)
  | windowProc (hwnd msg wparam lparam : Nat)

/-- The effect of one call on the world. -/
def step (os : OS) (world : World) : Event → World
  | .setWindowPosition w x y => setWindowPosition os world w x y
  | .setWindowSize w width height => setWindowSize os world w width height
  | .getWindowState w => (getWindowState os world w).1
  | .ensureWindowHook w => ensureWindowHook os world w
  | .removeWindowHook w => removeWindowHook world w
  | .windowProc hwnd msg wparam lparam => (windowProc os world hwnd msg wparam lparam).1

/-- The effect of a sequence of calls, first to last. -/
def run (os : OS) (world : World) (events : List Event) : World := events.foldl (step os) world

end Windows

/-! ## Concrete worlds on which the code is evaluated -/

/-- A window object on which nothing has been set and no hook is installed. -/
def freshWebview (window : Nat) : webview :=
  { window := window,
    state := { X := 0, Y := 0, Width := 0, Height := 0, State := WindowStateUnknown },
    hookInstalled := false, origWndProc := 0, hwnd := 0 }

/-- A world with one realised window: the object at address 1 owns the native
window 0x5A0, whose window procedure is 0x7000.  Every other object has no
native window yet. -/
def sampleWorld : World :=
  { heap := fun p => freshWebview (if p = 1 then 0x5A0 else 0),
    windowSubclass := [],
    wndProcs := fun h => if h = 0x5A0 then some 0x7000 else none,
    lastError := 0,
    calls := [] }

/-- An operating system on which every query succeeds: the window fills the
monitor 0x10001 (1920 by 1080), is shown normally and has the style
`WS_POPUP | WS_VISIBLE`; the original handler answers 42 and the default
handler 7; the `WINDOWPOS` structure at every address reports a resize to
800 by 600 with the move suppressed. -/
def sampleOS : OS :=
  { windowProcCallback := 0x9000,
    getWindowRect := fun _ => some { Left := 0, Top := 0, Right := 1920, Bottom := 1080 },
    getWindowPlacement := fun _ => some 1,
    getWindowLongPtr := fun _ _ => 0x90000000,
    monitorFromWindow := fun _ _ => 0x10001,
    getMonitorInfo := fun _ => some { Left := 0, Top := 0, Right := 1920, Bottom := 1080 },
    callWindowProc := fun _ _ _ _ _ => 42,
    defWindowProc := fun _ _ _ _ => 7,
    windowPosAt := fun _ =>
      { hwnd := 0x5A0, hwndInsertAfter := 0, x := 11, y := 22, cx := 800, cy := 600,
        flags := 0x0002 } }

/-- The world `sampleWorld` in which the object at address 1 caches a maximised window. -/
def maximizedWorld : World :=
  updateCachedState sampleWorld 1
    (fun _ => { X := 0, Y := 0, Width := 1920, Height := 1040, State := WindowStateMaximized })

/-- A world in which the window objects at addresses 1 and 2 both sit on the
native window 0x5A0, whose window procedure is 0x7000. -/
def sharedHandleWorld : World :=
  { sampleWorld with heap := fun p => freshWebview (if p = 1 ∨ p = 2 then 0x5A0 else 0) }

/-- The operating system `sampleOS` on which the window has the decorated style
`WS_OVERLAPPEDWINDOW | WS_VISIBLE` and is shown maximised. -/
def decoratedOS : OS :=
  { sampleOS with getWindowLongPtr := fun _ _ => 0x10CF0000, getWindowPlacement := fun _ => some 3 }

/-- Consistency of the registry with the window objects: the object registered
under a handle has its installed flag set and has saved that handle. -/
def hookConsistent (world : World) : Prop :=
  ∀ hwnd w : Nat, Windows.registryGet world.windowSubclass hwnd = some w →
    (world.heap w).hookInstalled = true ∧ (world.heap w).hwnd = hwnd

/-- Well-formedness of the hooks with respect to the native windows: each native
window belongs to one window object; a hooked object has saved its own handle
and a handler that is neither null nor the trampoline, and the trampoline is
installed on its window; the window of an object without a hook carries a
handler that is neither null nor the trampoline. -/
def hooksWellFormed (os : OS) (world : World) : Prop :=
  (∀ a b : Nat, (world.heap a).window = (world.heap b).window →
      (world.heap a).window ≠ 0 → a = b) ∧
    ∀ p : Nat,
      ((world.heap p).hookInstalled = true →
        (world.heap p).hwnd = (world.heap p).window ∧ (world.heap p).window ≠ 0 ∧
          world.wndProcs (world.heap p).window = some os.windowProcCallback ∧
          (world.heap p).origWndProc ≠ os.windowProcCallback ∧
          (world.heap p).origWndProc ≠ 0) ∧
      ((world.heap p).hookInstalled = false → (world.heap p).window ≠ 0 →
        world.wndProcs (world.heap p).window ≠ some os.windowProcCallback ∧
          world.wndProcs (world.heap p).window ≠ some 0)

/-! ## Lemmas on the cached state -/

theorem cached_updateCachedState (world : World) (p q : Nat) (f : WindowState → WindowState) :
    cached (updateCachedState world p f) q = if q = p then f (cached world q) else cached world q := by
  unfold cached updateCachedState
  by_cases h : q = p
  · subst h; simp
  · simp [Function.update, h]

namespace Windows

theorem cached_callSetWindowLongPtr (world : World) (hwnd index value q : Nat) :
    cached (callSetWindowLongPtr world hwnd index value).1 q = cached world q := by
  unfold callSetWindowLongPtr cached
  cases h : world.wndProcs hwnd <;> simp [h]

theorem cached_ensureWindowHook (os : OS) (world : World) (w : Option Nat) (q : Nat) :
    cached (ensureWindowHook os world w) q = cached world q := by
  cases w with
  | none => rfl
  | some p =>
    simp only [ensureWindowHook]
    split_ifs with h1 h2 h3
    · rfl
    · rfl
    · exact cached_callSetWindowLongPtr ..
    · have := cached_callSetWindowLongPtr world (world.heap p).window (toUintptrIndex gwlWndProc)
        os.windowProcCallback q
      unfold cached at this ⊢
      by_cases hq : q = p
      · subst hq; simpa using this
      · simpa [Function.update, hq] using this

theorem cached_removeWindowHook (world : World) (w : Option Nat) (q : Nat) :
    cached (removeWindowHook world w) q = cached world q := by
  cases w with
  | none => rfl
  | some p =>
    simp only [removeWindowHook]
    have hc := cached_callSetWindowLongPtr world (world.heap p).hwnd (toUintptrIndex gwlWndProc)
      (world.heap p).origWndProc q
    unfold cached at hc ⊢
    split_ifs with h1 h2
    · rfl
    · by_cases hq : q = p
      · subst hq; simpa using hc
      · simpa [Function.update, hq] using hc
    · by_cases hq : q = p
      · subst hq; simp
      · simp [Function.update, hq]

theorem cached_forwardWindowMessage (os : OS) (world : World) (orig hwnd msg wparam lparam q : Nat) :
    cached (forwardWindowMessage os world orig hwnd msg wparam lparam).1 q = cached world q := by
  unfold forwardWindowMessage cached
  split_ifs <;> rfl

theorem window_updateCachedState (world : World) (p q : Nat) (f : WindowState → WindowState) :
    ((updateCachedState world p f).heap q).window = (world.heap q).window := by
  unfold updateCachedState
  by_cases h : q = p
  · subst h; simp
  · simp [Function.update, h]

theorem cached_setWindowPosition (os : OS) (world : World) (p q : Nat) (x y : Int) :
    cached (setWindowPosition os world (some p) x y) q =
      if q = p then setWindowPositionMutator x y (cached world q) else cached world q := by
  have h := cached_updateCachedState (ensureWindowHook os world (some p)) p q
    (setWindowPositionMutator x y)
  rw [cached_ensureWindowHook] at h
  rw [← h]
  simp only [setWindowPosition]
  split_ifs <;> rfl

theorem cached_setWindowSize (os : OS) (world : World) (p q : Nat) (width height : Int) :
    cached (setWindowSize os world (some p) width height) q =
      if q = p then setWindowSizeMutator width height (cached world q) else cached world q := by
  have h := cached_updateCachedState (ensureWindowHook os world (some p)) p q
    (setWindowSizeMutator width height)
  rw [cached_ensureWindowHook] at h
  rw [← h]
  simp only [setWindowSize]
  split_ifs <;> rfl

end Windows

/-! ## Lemmas: a known presentation state stays known -/

theorem known_updateCachedState (world : World) (p q : Nat) (f : WindowState → WindowState)
    (hf : ∀ s : WindowState, s.State ≠ WindowStateUnknown → (f s).State ≠ WindowStateUnknown)
    (h : (cached world q).State ≠ WindowStateUnknown) :
    (cached (updateCachedState world p f) q).State ≠ WindowStateUnknown := by
  rw [cached_updateCachedState]
  split_ifs
  · exact hf _ h
  · exact h

theorem Other.fallback_known_setWindowPositionMutator (x y : Int) (s : WindowState)
    (h : s.State ≠ WindowStateUnknown) :
    (Other.setWindowPositionMutator x y s).State ≠ WindowStateUnknown := by
  simp [Other.setWindowPositionMutator, h]

theorem Other.fallback_known_setWindowSizeMutator (width height : Int) (s : WindowState)
    (h : s.State ≠ WindowStateUnknown) :
    (Other.setWindowSizeMutator width height s).State ≠ WindowStateUnknown := by
  unfold Other.setWindowSizeMutator
  by_cases hw : width > 0 <;> by_cases hh : height > 0 <;> simp [hw, hh, h]

theorem Other.fallback_known_step (world : World) (ev : Other.Event) (q : Nat)
    (h : (cached world q).State ≠ WindowStateUnknown) :
    (cached (Other.step world ev) q).State ≠ WindowStateUnknown := by
  cases ev with
  | setWindowPosition w x y =>
    cases w with
    | none => exact h
    | some p => exact known_updateCachedState _ _ _ _ (Other.fallback_known_setWindowPositionMutator x y) h
  | setWindowSize w width height =>
    cases w with
    | none => exact h
    | some p =>
      exact known_updateCachedState _ _ _ _ (Other.fallback_known_setWindowSizeMutator width height) h
  | ensureWindowHook w => exact h
  | removeWindowHook w => exact h

theorem Other.fallback_known_run (events : List Other.Event) (world : World) (q : Nat)
    (h : (cached world q).State ≠ WindowStateUnknown) :
    (cached (Other.run world events) q).State ≠ WindowStateUnknown := by
  induction events generalizing world with
  | nil => exact h
  | cons ev rest ih => exact ih (Other.step world ev) (Other.fallback_known_step world ev q h)

namespace Windows

theorem known_setWindowPositionMutator (x y : Int) (s : WindowState)
    (h : s.State ≠ WindowStateUnknown) :
    (setWindowPositionMutator x y s).State ≠ WindowStateUnknown := by
  simp [setWindowPositionMutator, h]

theorem known_setWindowSizeMutator (width height : Int) (s : WindowState)
    (h : s.State ≠ WindowStateUnknown) :
    (setWindowSizeMutator width height s).State ≠ WindowStateUnknown := by
  unfold setWindowSizeMutator
  by_cases hw : width > 0 <;> by_cases hh : height > 0 <;> simp [hw, hh, h]

theorem known_moveMessageMutator (x y : Int) (s : WindowState)
    (h : s.State ≠ WindowStateUnknown) :
    (moveMessageMutator x y s).State ≠ WindowStateUnknown := by
  simp [moveMessageMutator, h]

theorem known_windowPosChangedMutator (pos : windowPos) (s : WindowState)
    (h : s.State ≠ WindowStateUnknown) :
    (windowPosChangedMutator pos s).State ≠ WindowStateUnknown := by
  unfold windowPosChangedMutator
  by_cases hm : pos.flags &&& swpNoMove = 0 <;> by_cases hs : pos.flags &&& swpNoSize = 0 <;>
    by_cases hx : pos.cx > 0 <;> by_cases hy : pos.cy > 0 <;> simp [hm, hs, hx, hy, h]

theorem known_handleSizeMessage (world : World) (w wparam lparam q : Nat)
    (h : (cached world q).State ≠ WindowStateUnknown) :
    (cached (handleSizeMessage world w wparam lparam) q).State ≠ WindowStateUnknown := by
  simp only [handleSizeMessage]
  split_ifs with h1 h2 h3
  · exact h
  all_goals
    rw [cached_updateCachedState]
    split_ifs
    · simp [sizeMessageMutator]
    · exact h

theorem known_handleWindowPosChanged (os : OS) (world : World) (w lparam q : Nat)
    (h : (cached world q).State ≠ WindowStateUnknown) :
    (cached (handleWindowPosChanged os world w lparam) q).State ≠ WindowStateUnknown := by
  simp only [handleWindowPosChanged]
  split_ifs
  · exact h
  · exact known_updateCachedState _ _ _ _ (known_windowPosChangedMutator _) h

theorem known_handleMoveMessage (world : World) (w lparam q : Nat)
    (h : (cached world q).State ≠ WindowStateUnknown) :
    (cached (handleMoveMessage world w lparam) q).State ≠ WindowStateUnknown :=
  known_updateCachedState _ _ _ _ (known_moveMessageMutator _ _) h

theorem known_windowProc (os : OS) (world : World) (hwnd msg wparam lparam q : Nat)
    (h : (cached world q).State ≠ WindowStateUnknown) :
    (cached (windowProc os world hwnd msg wparam lparam).1 q).State ≠ WindowStateUnknown := by
  unfold windowProc
  cases hreg : registryGet world.windowSubclass hwnd with
  | none => simp only []; rw [cached_forwardWindowMessage]; exact h
  | some w =>
    simp only []
    split_ifs
    · rw [cached_forwardWindowMessage]; exact known_handleSizeMessage _ _ _ _ _ h
    · rw [cached_forwardWindowMessage]; exact known_handleWindowPosChanged _ _ _ _ _ h
    · rw [cached_forwardWindowMessage]; exact known_handleMoveMessage _ _ _ _ h
    · rw [cached_removeWindowHook, cached_forwardWindowMessage]; exact h
    · rw [cached_forwardWindowMessage]; exact h

theorem known_step (os : OS) (world : World) (ev : Event) (q : Nat)
    (h : (cached world q).State ≠ WindowStateUnknown) :
    (cached (step os world ev) q).State ≠ WindowStateUnknown := by
  cases ev with
  | setWindowPosition w x y =>
    cases w with
    | none => exact h
    | some p =>
      simp only [step]
      rw [cached_setWindowPosition]
      split_ifs
      · exact known_setWindowPositionMutator x y _ h
      · exact h
  | setWindowSize w width height =>
    cases w with
    | none => exact h
    | some p =>
      simp only [step]
      rw [cached_setWindowSize]
      split_ifs
      · exact known_setWindowSizeMutator width height _ h
      · exact h
  | getWindowState w =>
    simp only [step, getWindowState]
    split_ifs <;> (simp only []; rw [cached_ensureWindowHook]; exact h)
  | ensureWindowHook w => simp only [step]; rw [cached_ensureWindowHook]; exact h
  | removeWindowHook w => simp only [step]; rw [cached_removeWindowHook]; exact h
  | windowProc hwnd msg wparam lparam => exact known_windowProc os world hwnd msg wparam lparam q h

theorem known_run (os : OS) (events : List Event) (world : World) (q : Nat)
    (h : (cached world q).State ≠ WindowStateUnknown) :
    (cached (run os world events) q).State ≠ WindowStateUnknown := by
  induction events generalizing world with
  | nil => exact h
  | cons ev rest ih => exact ih (step os world ev) (known_step os world ev q h)

end Windows

/-! ## Lemmas on the native handle and on the query -/

namespace Windows

theorem window_callSetWindowLongPtr (world : World) (hwnd index value q : Nat) :
    ((callSetWindowLongPtr world hwnd index value).1.heap q).window = (world.heap q).window := by
  unfold callSetWindowLongPtr
  cases h : world.wndProcs hwnd <;> simp [h]

theorem window_ensureWindowHook (os : OS) (world : World) (w : Option Nat) (q : Nat) :
    ((ensureWindowHook os world w).heap q).window = (world.heap q).window := by
  cases w with
  | none => rfl
  | some p =>
    simp only [ensureWindowHook]
    have hc := window_callSetWindowLongPtr world (world.heap p).window (toUintptrIndex gwlWndProc)
      os.windowProcCallback q
    split_ifs with h1 h2 h3
    · rfl
    · rfl
    · exact hc
    · by_cases hq : q = p
      · subst hq; simpa using hc
      · simpa [Function.update, hq] using hc

theorem getWindowState_realized (os : OS) (world : World) (w : Nat)
    (h : (world.heap w).window ≠ 0) :
    (getWindowState os world w).2 = queryWindowState os (world.heap w).window := by
  simp only [getWindowState, window_ensureWindowHook]
  rw [if_neg h]

end Windows

/-! ## Lemmas on the payload decoding -/

namespace Windows

theorem low_word (n : Nat) : n &&& 0xFFFF = n % 65536 :=
  Nat.and_pow_two_sub_one_eq_mod n 16

theorem high_word (n : Nat) : (n >>> 16) &&& 0xFFFF = n / 65536 % 65536 := by
  rw [low_word, Nat.shiftRight_eq_div_pow]

theorem pack_eq_add (a b hi : Nat) (ha : a < 65536) (hb : b < 65536) :
    a ||| b <<< 16 ||| hi <<< 32 = 4294967296 * hi + (65536 * b + a) := by
  have h1 : a ||| b <<< 16 = 65536 * b + a := by
    rw [Nat.or_comm, Nat.shiftLeft_eq, Nat.mul_comm]
    exact (Nat.mul_add_lt_is_or (i := 16) ha b).symm
  have h2 : 65536 * b + a < 2 ^ 32 := by omega
  rw [h1, Nat.or_comm, Nat.shiftLeft_eq, Nat.mul_comm]
  exact (Nat.mul_add_lt_is_or (i := 32) h2 hi).symm

theorem int16_roundtrip (x : Int) (hlo : -32768 ≤ x) (hhi : x ≤ 32767) :
    int16 (uint16 ((x % 65536).toNat)) = x := by
  unfold int16 uint16
  have h : ((x % 65536).toNat : Int) = x % 65536 := Int.toNat_of_nonneg (by omega)
  split_ifs with hc <;> omega

end Windows

/-! ## Lemmas on the registry -/

namespace Windows

theorem registryCount_registrySet (reg : List (Nat × Nat)) (hwnd w : Nat) :
    registryCount (registrySet reg hwnd w) hwnd = 1 := by
  unfold registryCount registrySet
  have h : List.filter (fun e : Nat × Nat => e.1 == hwnd)
      (List.filter (fun e : Nat × Nat => e.1 != hwnd) reg) = [] := by
    rw [List.filter_eq_nil_iff]
    intro e he
    have := (List.mem_filter.mp he).2
    simpa using this
  simp [List.filter_cons, h]

theorem registryGet_registrySet (reg : List (Nat × Nat)) (hwnd w : Nat) :
    registryGet (registrySet reg hwnd w) hwnd = some w := by
  simp [registryGet, registrySet]

theorem registryGet_registryDelete (reg : List (Nat × Nat)) (hwnd : Nat) :
    registryGet (registryDelete reg hwnd) hwnd = none := by
  unfold registryGet registryDelete
  rw [Option.map_eq_none', List.find?_eq_none]
  intro e he
  have := (List.mem_filter.mp he).2
  simpa using this

end Windows

/-! ## Lemmas: the registry stays consistent with the window objects -/

namespace Windows

theorem registryGet_registryDelete_ne (reg : List (Nat × Nat)) (k h : Nat) (hne : h ≠ k) :
    registryGet (registryDelete reg k) h = registryGet reg h := by
  unfold registryGet registryDelete
  rw [List.find?_filter]
  have hfun : (fun a : Nat × Nat => decide ((a.1 != k) = true ∧ (a.1 == h) = true))
      = (fun e => e.1 == h) := by
    funext a
    by_cases ha : a.1 = h
    · simp [ha, hne]
    · simp [ha]
  rw [hfun]

theorem registryGet_registrySet_ne (reg : List (Nat × Nat)) (k v h : Nat) (hne : h ≠ k) :
    registryGet (registrySet reg k v) h = registryGet reg h := by
  have hd := registryGet_registryDelete_ne reg k h hne
  unfold registryGet registryDelete at hd
  unfold registryGet registrySet
  have hk : ¬ k = h := fun e => hne e.symm
  simp [List.find?_cons, hk] at hd ⊢
  exact hd

theorem registryGet_registryDelete_some (reg : List (Nat × Nat)) (k h w : Nat)
    (hget : registryGet (registryDelete reg k) h = some w) :
    h ≠ k ∧ registryGet reg h = some w := by
  by_cases hk : h = k
  · subst hk; rw [registryGet_registryDelete] at hget; cases hget
  · exact ⟨hk, by rw [← registryGet_registryDelete_ne reg k h hk]; exact hget⟩

end Windows

theorem hookConsistent_updateCachedState (world : World) (p : Nat) (f : WindowState → WindowState)
    (h : hookConsistent world) : hookConsistent (updateCachedState world p f) := by
  intro hwnd w hreg
  have := h hwnd w hreg
  unfold updateCachedState
  by_cases hq : w = p
  · subst hq; simpa using this
  · simpa [Function.update, hq] using this

namespace Windows

theorem hookConsistent_calls (world : World) (calls : List OsCall) (h : hookConsistent world) :
    hookConsistent { world with calls := calls } := h

theorem heap_callSetWindowLongPtr (world : World) (hwnd index value : Nat) :
    (callSetWindowLongPtr world hwnd index value).1.heap = world.heap := by
  unfold callSetWindowLongPtr
  cases hp : world.wndProcs hwnd <;> simp [hp]

theorem registry_callSetWindowLongPtr (world : World) (hwnd index value : Nat) :
    (callSetWindowLongPtr world hwnd index value).1.windowSubclass = world.windowSubclass := by
  unfold callSetWindowLongPtr
  cases hp : world.wndProcs hwnd <;> simp [hp]

theorem hookConsistent_callSetWindowLongPtr (world : World) (hwnd index value : Nat)
    (h : hookConsistent world) :
    hookConsistent (callSetWindowLongPtr world hwnd index value).1 := by
  intro k q hreg
  rw [registry_callSetWindowLongPtr] at hreg
  rw [heap_callSetWindowLongPtr]
  exact h k q hreg

theorem hookConsistent_ensureWindowHook (os : OS) (world : World) (w : Option Nat)
    (h : hookConsistent world) : hookConsistent (ensureWindowHook os world w) := by
  cases w with
  | none => exact h
  | some p =>
    simp only [ensureWindowHook]
    split_ifs with h1 h2 h3
    · exact h
    · exact h
    · exact hookConsistent_callSetWindowLongPtr _ _ _ _ h
    · intro hwnd q hreg
      simp only [heap_callSetWindowLongPtr, registry_callSetWindowLongPtr] at hreg ⊢
      by_cases hk : hwnd = (world.heap p).window
      · subst hk
        rw [registryGet_registrySet] at hreg
        cases hreg
        simp
      · rw [registryGet_registrySet_ne _ _ _ _ hk] at hreg
        have hq := h hwnd q hreg
        have hne : q ≠ p := by
          intro e; subst e; rw [hq.1] at h2; exact h2 rfl
        simpa [Function.update, hne] using hq

theorem hookConsistent_removeWindowHook (world : World) (w : Option Nat)
    (h : hookConsistent world) : hookConsistent (removeWindowHook world w) := by
  cases w with
  | none => exact h
  | some p =>
    simp only [removeWindowHook]
    split_ifs with h1 h2
    · exact h
    · intro hwnd q hreg
      simp only [heap_callSetWindowLongPtr, registry_callSetWindowLongPtr] at hreg ⊢
      obtain ⟨hk, hget⟩ := registryGet_registryDelete_some _ _ _ _ hreg
      have hq := h hwnd q hget
      have hne : q ≠ p := by
        intro e; subst e; exact hk hq.2.symm
      simpa [Function.update, hne] using hq
    · intro hwnd q hreg
      simp only [] at hreg ⊢
      obtain ⟨hk, hget⟩ := registryGet_registryDelete_some _ _ _ _ hreg
      have hq := h hwnd q hget
      have hne : q ≠ p := by
        intro e; subst e; exact hk hq.2.symm
      simpa [Function.update, hne] using hq

theorem hookConsistent_forwardWindowMessage (os : OS) (world : World)
    (orig hwnd msg wparam lparam : Nat) (h : hookConsistent world) :
    hookConsistent (forwardWindowMessage os world orig hwnd msg wparam lparam).1 := by
  unfold forwardWindowMessage
  split_ifs <;> exact h

theorem hookConsistent_windowProc (os : OS) (world : World) (hwnd msg wparam lparam : Nat)
    (h : hookConsistent world) :
    hookConsistent (windowProc os world hwnd msg wparam lparam).1 := by
  unfold windowProc
  cases hreg : registryGet world.windowSubclass hwnd with
  | none => exact hookConsistent_forwardWindowMessage _ _ _ _ _ _ _ h
  | some w =>
    simp only []
    split_ifs
    · apply hookConsistent_forwardWindowMessage
      simp only [handleSizeMessage]
      split_ifs
      · exact h
      all_goals exact hookConsistent_updateCachedState _ _ _ h
    · apply hookConsistent_forwardWindowMessage
      simp only [handleWindowPosChanged]
      split_ifs
      · exact h
      · exact hookConsistent_updateCachedState _ _ _ h
    · apply hookConsistent_forwardWindowMessage
      exact hookConsistent_updateCachedState _ _ _ h
    · exact hookConsistent_removeWindowHook _ _ (hookConsistent_forwardWindowMessage _ _ _ _ _ _ _ h)
    · exact hookConsistent_forwardWindowMessage _ _ _ _ _ _ _ h

theorem hookConsistent_step (os : OS) (world : World) (ev : Event) (h : hookConsistent world) :
    hookConsistent (step os world ev) := by
  cases ev with
  | setWindowPosition w x y =>
    have he := hookConsistent_ensureWindowHook os world w h
    cases w with
    | none => exact he
    | some p =>
      simp only [step, setWindowPosition]
      split_ifs
      · exact hookConsistent_updateCachedState _ _ _ he
      · exact hookConsistent_calls _ _ (hookConsistent_updateCachedState _ _ _ he)
  | setWindowSize w width height =>
    have he := hookConsistent_ensureWindowHook os world w h
    cases w with
    | none => exact he
    | some p =>
      simp only [step, setWindowSize]
      split_ifs
      · exact hookConsistent_updateCachedState _ _ _ he
      · exact hookConsistent_calls _ _ (hookConsistent_updateCachedState _ _ _ he)
  | getWindowState w =>
    simp only [step, getWindowState]
    split_ifs <;> exact hookConsistent_ensureWindowHook os world (some w) h
  | ensureWindowHook w => exact hookConsistent_ensureWindowHook os world w h
  | removeWindowHook w => exact hookConsistent_removeWindowHook world w h
  | windowProc hwnd msg wparam lparam => exact hookConsistent_windowProc os world hwnd msg wparam lparam h

theorem hookConsistent_run (os : OS) (events : List Event) (world : World)
    (h : hookConsistent world) : hookConsistent (run os world events) := by
  induction events generalizing world with
  | nil => exact h
  | cons ev rest ih => exact ih (step os world ev) (hookConsistent_step os world ev h)

theorem hookConsistent_of_empty (world : World) (h : world.windowSubclass = []) :
    hookConsistent world := by
  intro hwnd w hreg
  rw [h] at hreg
  cases hreg

end Windows

/-! ## Lemmas on the trampoline and its nested activations -/

namespace Windows

theorem registry_updateCachedState (world : World) (p : Nat) (f : WindowState → WindowState) :
    (updateCachedState world p f).windowSubclass = world.windowSubclass := rfl

theorem origWndProc_updateCachedState (world : World) (p q : Nat)
    (f : WindowState → WindowState) :
    ((updateCachedState world p f).heap q).origWndProc = (world.heap q).origWndProc := by
  unfold updateCachedState
  by_cases h : q = p
  · subst h; simp
  · simp [Function.update, h]

theorem windowProcNested_trampoline_saved (os : OS) (hwnd w msg wparam lparam : Nat)
    (hcallback : os.windowProcCallback ≠ 0) (depth : Nat) (world : World)
    (hreg : registryGet world.windowSubclass hwnd = some w)
    (horig : (world.heap w).origWndProc = os.windowProcCallback) :
    windowProcNested os depth world hwnd msg wparam lparam = none := by
  induction depth generalizing world with
  | zero => rfl
  | succ depth ih =>
    have hforward : ∀ inner : World, registryGet inner.windowSubclass hwnd = some w →
        (inner.heap w).origWndProc = os.windowProcCallback →
        forwardWindowMessageNested os
          (fun again : World => windowProcNested os depth again hwnd msg wparam lparam)
          inner os.windowProcCallback hwnd msg wparam lparam = none := by
      intro inner hr ho
      unfold forwardWindowMessageNested
      rw [if_pos hcallback, if_pos rfl]
      exact ih _ hr ho
    unfold windowProcNested
    simp only [hreg, horig]
    split_ifs
    · apply hforward
      · simp only [handleSizeMessage]
        split_ifs <;> exact hreg
      · simp only [handleSizeMessage]
        split_ifs <;> first | exact horig | (rw [origWndProc_updateCachedState]; exact horig)
    · apply hforward
      · simp only [handleWindowPosChanged]
        split_ifs <;> exact hreg
      · simp only [handleWindowPosChanged]
        split_ifs <;> first | exact horig | (rw [origWndProc_updateCachedState]; exact horig)
    · apply hforward
      · exact hreg
      · simp only [handleMoveMessage]; rw [origWndProc_updateCachedState]; exact horig
    · rw [hforward world hreg horig]
    · exact hforward world hreg horig

theorem shared_handle_destroy_never_returns (depth : Nat) :
    registryGet (run sampleOS sharedHandleWorld
        [Event.ensureWindowHook (some 1), Event.ensureWindowHook (some 2)]).windowSubclass 0x5A0
        = some 2 ∧
      windowProcNested sampleOS depth
        (run sampleOS sharedHandleWorld
          [Event.ensureWindowHook (some 1), Event.ensureWindowHook (some 2)])
        0x5A0 wmDestroy 0 0 = none :=
  ⟨by decide,
    windowProcNested_trampoline_saved sampleOS 0x5A0 2 wmDestroy 0 0 (by decide) depth _
      (by decide) (by decide)⟩

end Windows

/-! ## Lemmas: hooks stay well-formed -/

theorem hooksWellFormed_congr (os : OS) (a b : World)
    (hwindow : ∀ q, (b.heap q).window = (a.heap q).window)
    (hinst : ∀ q, (b.heap q).hookInstalled = (a.heap q).hookInstalled)
    (hhwnd : ∀ q, (b.heap q).hwnd = (a.heap q).hwnd)
    (horig : ∀ q, (b.heap q).origWndProc = (a.heap q).origWndProc)
    (hprocs : b.wndProcs = a.wndProcs)
    (h : hooksWellFormed os a) : hooksWellFormed os b := by
  unfold hooksWellFormed at h ⊢
  simp only [hwindow, hinst, hhwnd, horig, hprocs]
  exact h

theorem hooksWellFormed_updateCachedState (os : OS) (world : World) (p : Nat)
    (f : WindowState → WindowState) (h : hooksWellFormed os world) :
    hooksWellFormed os (updateCachedState world p f) := by
  refine hooksWellFormed_congr os world _ ?_ ?_ ?_ ?_ rfl h
  all_goals
    intro q
    unfold updateCachedState
    by_cases hq : q = p
    · subst hq; simp
    · simp [Function.update, hq]

namespace Windows

theorem hooksWellFormed_ensureWindowHook (os : OS) (world : World) (w : Option Nat)
    (h : hooksWellFormed os world) : hooksWellFormed os (ensureWindowHook os world w) := by
  cases w with
  | none => exact h
  | some p =>
    by_cases h0 : (world.heap p).window = 0
    · simp only [ensureWindowHook, if_pos h0]; exact h
    · by_cases hi : (world.heap p).hookInstalled = true
      · simp only [ensureWindowHook, if_neg h0, if_pos hi]; exact h
      · have hfalse : (world.heap p).hookInstalled = false := by simpa using hi
        have hun := (h.2 p).2 hfalse h0
        cases hp : world.wndProcs (world.heap p).window with
        | none =>
          refine hooksWellFormed_congr os world _ ?_ ?_ ?_ ?_ ?_ h <;>
            simp [ensureWindowHook, callSetWindowLongPtr, h0, hfalse, hp, errorInvalidWindowHandle]
        | some prev =>
          have hprevT : prev ≠ os.windowProcCallback := by
            intro e; apply hun.1; rw [hp, e]
          have hprev0 : prev ≠ 0 := by
            intro e; apply hun.2; rw [hp, e]
          obtain ⟨huniq, hall⟩ := h
          have hheap : ∀ q, q ≠ p →
              (ensureWindowHook os world (some p)).heap q = world.heap q := by
            intro q hq
            simp [ensureWindowHook, callSetWindowLongPtr, h0, hfalse, hp, hprev0,
              Function.update, hq]
          have hobj : (ensureWindowHook os world (some p)).heap p
              = { world.heap p with origWndProc := prev, hwnd := (world.heap p).window,
                                     hookInstalled := true } := by
            simp [ensureWindowHook, callSetWindowLongPtr, h0, hfalse, hp, hprev0]
          have hprocs : (ensureWindowHook os world (some p)).wndProcs
              = Function.update world.wndProcs (world.heap p).window
                  (some os.windowProcCallback) := by
            simp [ensureWindowHook, callSetWindowLongPtr, h0, hfalse, hp, hprev0]
          have hwindow : ∀ q, ((ensureWindowHook os world (some p)).heap q).window
              = (world.heap q).window := fun q => window_ensureWindowHook os world (some p) q
          refine ⟨?_, ?_⟩
          · intro a b hab ha
            rw [hwindow a] at ha
            rw [hwindow a, hwindow b] at hab
            exact huniq a b hab ha
          · intro q
            by_cases hq : q = p
            · subst hq
              rw [hobj, hprocs]
              simp [h0, hprevT, hprev0]
            · rw [hheap q hq, hprocs]
              have hne : (world.heap q).window ≠ 0 → (world.heap q).window ≠ (world.heap p).window :=
                fun hq0 e => hq (huniq q p e hq0)
              refine ⟨?_, ?_⟩
              · intro hqi
                obtain ⟨a1, a2, a3, a4, a5⟩ := (hall q).1 hqi
                refine ⟨a1, a2, ?_, a4, a5⟩
                rw [Function.update_noteq (hne a2)]
                exact a3
              · intro hqi hq0
                rw [Function.update_noteq (hne hq0)]
                exact (hall q).2 hqi hq0

end Windows

namespace Windows

theorem window_removeWindowHook (world : World) (w : Option Nat) (q : Nat) :
    ((removeWindowHook world w).heap q).window = (world.heap q).window := by
  cases w with
  | none => rfl
  | some p =>
    simp only [removeWindowHook]
    split_ifs with h1 h2
    · rfl
    · by_cases hq : q = p
      · subst hq; simp [heap_callSetWindowLongPtr]
      · simp [Function.update, hq, heap_callSetWindowLongPtr]
    · by_cases hq : q = p
      · subst hq; simp
      · simp [Function.update, hq]

theorem hooksWellFormed_removeWindowHook (os : OS) (world : World) (w : Option Nat)
    (h : hooksWellFormed os world) : hooksWellFormed os (removeWindowHook world w) := by
  cases w with
  | none => exact h
  | some p =>
    by_cases hi : (world.heap p).hookInstalled = true
    · obtain ⟨huniq, hall⟩ := h
      obtain ⟨b1, b2, b3, b4, b5⟩ := (hall p).1 hi
      have hsaved0 : (world.heap p).hwnd ≠ 0 := by rw [b1]; exact b2
      have hp : world.wndProcs (world.heap p).hwnd = some os.windowProcCallback := by
        rw [b1]; exact b3
      have hheap : ∀ q, q ≠ p → (removeWindowHook world (some p)).heap q = world.heap q := by
        intro q hq
        simp [removeWindowHook, callSetWindowLongPtr, hi, hsaved0, b5, hp, Function.update, hq]
      have hobj : (removeWindowHook world (some p)).heap p
          = { world.heap p with hookInstalled := false, origWndProc := 0, hwnd := 0 } := by
        simp [removeWindowHook, callSetWindowLongPtr, hi, hsaved0, b5, hp]
      have hprocs : (removeWindowHook world (some p)).wndProcs
          = Function.update world.wndProcs (world.heap p).window
              (some (world.heap p).origWndProc) := by
        simp [removeWindowHook, callSetWindowLongPtr, hi, b1, b2, b3, b5]
      have hwindow : ∀ q, ((removeWindowHook world (some p)).heap q).window
          = (world.heap q).window := fun q => window_removeWindowHook world (some p) q
      refine ⟨?_, ?_⟩
      · intro a b hab ha
        rw [hwindow a] at ha
        rw [hwindow a, hwindow b] at hab
        exact huniq a b hab ha
      · intro q
        by_cases hq : q = p
        · subst hq
          rw [hobj, hprocs]
          simp [b4, b5]
        · rw [hheap q hq, hprocs]
          have hne : (world.heap q).window ≠ 0 → (world.heap q).window ≠ (world.heap p).window :=
            fun hq0 e => hq (huniq q p e hq0)
          refine ⟨?_, ?_⟩
          · intro hqi
            obtain ⟨a1, a2, a3, a4, a5⟩ := (hall q).1 hqi
            refine ⟨a1, a2, ?_, a4, a5⟩
            rw [Function.update_noteq (hne a2)]
            exact a3
          · intro hqi hq0
            rw [Function.update_noteq (hne hq0)]
            exact (hall q).2 hqi hq0
    · have hfalse : (world.heap p).hookInstalled = false := by simpa using hi
      simp only [removeWindowHook, hfalse]
      exact h

theorem hooksWellFormed_calls (os : OS) (world : World) (calls : List OsCall)
    (h : hooksWellFormed os world) : hooksWellFormed os { world with calls := calls } := h

theorem hooksWellFormed_forwardWindowMessage (os : OS) (world : World)
    (orig hwnd msg wparam lparam : Nat) (h : hooksWellFormed os world) :
    hooksWellFormed os (forwardWindowMessage os world orig hwnd msg wparam lparam).1 := by
  unfold forwardWindowMessage
  split_ifs <;> exact h

theorem hooksWellFormed_windowProc (os : OS) (world : World) (hwnd msg wparam lparam : Nat)
    (h : hooksWellFormed os world) :
    hooksWellFormed os (windowProc os world hwnd msg wparam lparam).1 := by
  unfold windowProc
  cases hreg : registryGet world.windowSubclass hwnd with
  | none => exact hooksWellFormed_forwardWindowMessage _ _ _ _ _ _ _ h
  | some w =>
    simp only []
    split_ifs
    · apply hooksWellFormed_forwardWindowMessage
      simp only [handleSizeMessage]
      split_ifs
      · exact h
      all_goals exact hooksWellFormed_updateCachedState _ _ _ _ h
    · apply hooksWellFormed_forwardWindowMessage
      simp only [handleWindowPosChanged]
      split_ifs
      · exact h
      · exact hooksWellFormed_updateCachedState _ _ _ _ h
    · apply hooksWellFormed_forwardWindowMessage
      exact hooksWellFormed_updateCachedState _ _ _ _ h
    · exact hooksWellFormed_removeWindowHook _ _ _
        (hooksWellFormed_forwardWindowMessage _ _ _ _ _ _ _ h)
    · exact hooksWellFormed_forwardWindowMessage _ _ _ _ _ _ _ h

theorem hooksWellFormed_step (os : OS) (world : World) (ev : Event)
    (h : hooksWellFormed os world) : hooksWellFormed os (step os world ev) := by
  cases ev with
  | setWindowPosition w x y =>
    have he := hooksWellFormed_ensureWindowHook os world w h
    cases w with
    | none => exact he
    | some p =>
      simp only [step, setWindowPosition]
      split_ifs
      · exact hooksWellFormed_updateCachedState _ _ _ _ he
      · exact hooksWellFormed_calls _ _ _ (hooksWellFormed_updateCachedState _ _ _ _ he)
  | setWindowSize w width height =>
    have he := hooksWellFormed_ensureWindowHook os world w h
    cases w with
    | none => exact he
    | some p =>
      simp only [step, setWindowSize]
      split_ifs
      · exact hooksWellFormed_updateCachedState _ _ _ _ he
      · exact hooksWellFormed_calls _ _ _ (hooksWellFormed_updateCachedState _ _ _ _ he)
  | getWindowState w =>
    simp only [step, getWindowState]
    split_ifs <;> exact hooksWellFormed_ensureWindowHook os world (some w) h
  | ensureWindowHook w => exact hooksWellFormed_ensureWindowHook os world w h
  | removeWindowHook w => exact hooksWellFormed_removeWindowHook os world w h
  | windowProc hwnd msg wparam lparam =>
    exact hooksWellFormed_windowProc os world hwnd msg wparam lparam h

theorem hooksWellFormed_run (os : OS) (events : List Event) (world : World)
    (h : hooksWellFormed os world) : hooksWellFormed os (run os world events) := by
  induction events generalizing world with
  | nil => exact h
  | cons ev rest ih => exact ih (step os world ev) (hooksWellFormed_step os world ev h)

theorem saved_handler_foreign (os : OS) (initial : World) (events : List Event) (hwnd w : Nat)
    (hinitial : initial.windowSubclass = []) (hwell : hooksWellFormed os initial)
    (hreg : registryGet (run os initial events).windowSubclass hwnd = some w) :
    ((run os initial events).heap w).origWndProc ≠ os.windowProcCallback ∧
      ((run os initial events).heap w).origWndProc ≠ 0 := by
  have hcons := hookConsistent_run os events initial (hookConsistent_of_empty initial hinitial)
  have hw := hooksWellFormed_run os events initial hwell
  obtain ⟨_, _, _, a4, a5⟩ := (hw.2 w).1 (hcons hwnd w hreg).1
  exact ⟨a4, a5⟩

theorem hooksWellFormed_sampleWorld : hooksWellFormed sampleOS sampleWorld := by
  refine ⟨?_, ?_⟩
  · intro a b hab ha
    have ha1 : a = 1 := by
      by_contra hne
      exact ha (by simp [sampleWorld, freshWebview, hne])
    have hb1 : b = 1 := by
      by_contra hne
      rw [ha1] at hab
      simp [sampleWorld, freshWebview, hne] at hab
    rw [ha1, hb1]
  · intro p
    refine ⟨?_, ?_⟩
    · intro hp
      simp [sampleWorld, freshWebview] at hp
    · intro _ hp0
      have hp1 : p = 1 := by
        by_contra hne
        exact hp0 (by simp [sampleWorld, freshWebview, hne])
      subst hp1
      simp [sampleWorld, freshWebview, sampleOS]

end Windows

/-! ## The claims -/

/-- C1: the cached `State` never regresses to Unknown.  For every window object
whose cached `State` is not Unknown, after every prefix of every sequence of
calls (setters, queries, hook operations and messages delivered to the
trampoline on the Windows build; setters and hook operations on the fallback
build) the cached `State` is still not Unknown. -/
theorem state_never_regresses_to_unknown (os : OS) (world : World) (w : Nat)
    (h : (cached world w).State ≠ WindowStateUnknown)
    (events : List Windows.Event) (calls : List Other.Event) (n : Nat) :
    (cached (Windows.run os world (events.take n)) w).State ≠ WindowStateUnknown ∧
      (cached (Other.run world (calls.take n)) w).State ≠ WindowStateUnknown :=
  ⟨Windows.known_run os _ world w h, Other.fallback_known_run _ world w h⟩

/-- Witness of C1 on a maximised window that receives a size setter with
non-positive arguments, a move message and a resize message. -/
theorem state_never_regresses_to_unknown_witness :
    (cached maximizedWorld 1).State ≠ WindowStateUnknown ∧
      (cached (Windows.run sampleOS maximizedWorld
        ([Windows.Event.setWindowSize (some 1) 0 (-3),
          Windows.Event.windowProc 0x5A0 Windows.wmMove 0 0x00140010,
          Windows.Event.windowProc 0x5A0 Windows.wmSize 1 0x00100010].take 3)) 1).State
        ≠ WindowStateUnknown ∧
      (cached (Other.run maximizedWorld
        ([Other.Event.setWindowSize (some 1) 0 0,
          Other.Event.setWindowPosition (some 1) 5 6].take 3)) 1).State ≠ WindowStateUnknown :=
  ⟨by decide,
    state_never_regresses_to_unknown sampleOS maximizedWorld 1 (by decide)
      [Windows.Event.setWindowSize (some 1) 0 (-3),
        Windows.Event.windowProc 0x5A0 Windows.wmMove 0 0x00140010,
        Windows.Event.windowProc 0x5A0 Windows.wmSize 1 0x00100010]
      [Other.Event.setWindowSize (some 1) 0 0, Other.Event.setWindowPosition (some 1) 5 6] 3⟩

/-- C2, as stated, fails: on a window object with nothing cached (State Unknown,
Width 0, Height 0) the call `setWindowSize(w, 5, 0)` has a positive width and
stores it, yet the cached State is still Unknown afterwards, on both builds. -/
theorem setWindowSize_single_dimension_stays_unknown :
    (cached sampleWorld 1).State = WindowStateUnknown ∧ ((5 : Int) > 0 ∨ (0 : Int) > 0) ∧
      (cached (Other.setWindowSize sampleWorld (some 1) 5 0) 1).Width = 5 ∧
      (cached (Other.setWindowSize sampleWorld (some 1) 5 0) 1).State ≠ WindowStateNormal ∧
      (cached (Windows.setWindowSize sampleOS sampleWorld (some 1) 5 0) 1).Width = 5 ∧
      (cached (Windows.setWindowSize sampleOS sampleWorld (some 1) 5 0) 1).State
        ≠ WindowStateNormal := by
  decide

/-- C2, amended: starting from a cache whose State is Unknown, every
`setWindowPosition(x, y)` leaves the cached State Normal; a
`setWindowSize(width, height)` leaves it Normal exactly when, after the positive
arguments have been stored, both the cached Width and the cached Height are
positive, and leaves it Unknown otherwise.  On both builds. -/
theorem unknown_promoted_to_normal (os : OS) (world : World) (w : Nat) (x y width height : Int)
    (h : (cached world w).State = WindowStateUnknown) :
    (cached (Other.setWindowPosition world (some w) x y) w).State = WindowStateNormal ∧
      (cached (Windows.setWindowPosition os world (some w) x y) w).State = WindowStateNormal ∧
      (cached (Other.setWindowSize world (some w) width height) w).State =
        (if (cached (Other.setWindowSize world (some w) width height) w).Width > 0 ∧
            (cached (Other.setWindowSize world (some w) width height) w).Height > 0
          then WindowStateNormal else WindowStateUnknown) ∧
      (cached (Windows.setWindowSize os world (some w) width height) w).State =
        (if (cached (Windows.setWindowSize os world (some w) width height) w).Width > 0 ∧
            (cached (Windows.setWindowSize os world (some w) width height) w).Height > 0
          then WindowStateNormal else WindowStateUnknown) := by
  have ho : ∀ f, cached (updateCachedState world w f) w = f (cached world w) := by
    intro f; rw [cached_updateCachedState]; simp
  refine ⟨?_, ?_, ?_, ?_⟩
  · simp only [Other.setWindowPosition, ho]
    simp [Other.setWindowPositionMutator, h]
  · rw [Windows.cached_setWindowPosition]
    simp [Windows.setWindowPositionMutator, h]
  · simp only [Other.setWindowSize, ho]
    unfold Other.setWindowSizeMutator
    by_cases hw : width > 0 <;> by_cases hh : height > 0 <;>
      by_cases hW : (cached world w).Width > 0 <;> by_cases hH : (cached world w).Height > 0 <;>
      simp [hw, hh, hW, hH, h]
  · rw [Windows.cached_setWindowSize]
    simp only [if_true]
    unfold Windows.setWindowSizeMutator
    by_cases hw : width > 0 <;> by_cases hh : height > 0 <;>
      by_cases hW : (cached world w).Width > 0 <;> by_cases hH : (cached world w).Height > 0 <;>
      simp [hw, hh, hW, hH, h]

/-- Witness of the amended C2 on a window object with nothing cached. -/
theorem unknown_promoted_to_normal_witness :
    (cached sampleWorld 1).State = WindowStateUnknown ∧
      (cached (Windows.setWindowPosition sampleOS sampleWorld (some 1) (-4) 9) 1).State
        = WindowStateNormal ∧
      (cached (Windows.setWindowSize sampleOS sampleWorld (some 1) 640 480) 1).State
        = WindowStateNormal :=
  ⟨by decide,
    (unknown_promoted_to_normal sampleOS sampleWorld 1 (-4) 9 640 480 (by decide)).2.1,
    by
      have h := (unknown_promoted_to_normal sampleOS sampleWorld 1 (-4) 9 640 480
        (by decide)).2.2.2
      rw [h]
      decide⟩

/-- C3: for every cached state and every pair of integers (width, height),
`setWindowSize` stores a dimension exactly when its argument is positive, leaves
it unchanged when the argument is zero or negative, and never changes X or Y; a
nil window changes nothing.  On both builds. -/
theorem setWindowSize_frame (os : OS) (world : World) (w : Nat) (width height : Int) :
    ((cached (Other.setWindowSize world (some w) width height) w).Width
        = if width ≤ 0 then (cached world w).Width else width) ∧
      ((cached (Other.setWindowSize world (some w) width height) w).Height
        = if height ≤ 0 then (cached world w).Height else height) ∧
      (cached (Other.setWindowSize world (some w) width height) w).X = (cached world w).X ∧
      (cached (Other.setWindowSize world (some w) width height) w).Y = (cached world w).Y ∧
      ((cached (Windows.setWindowSize os world (some w) width height) w).Width
        = if width ≤ 0 then (cached world w).Width else width) ∧
      ((cached (Windows.setWindowSize os world (some w) width height) w).Height
        = if height ≤ 0 then (cached world w).Height else height) ∧
      (cached (Windows.setWindowSize os world (some w) width height) w).X = (cached world w).X ∧
      (cached (Windows.setWindowSize os world (some w) width height) w).Y = (cached world w).Y ∧
      cached (Other.setWindowSize world none width height) w = cached world w ∧
      cached (Windows.setWindowSize os world none width height) w = cached world w := by
  have ho : cached (Other.setWindowSize world (some w) width height) w
      = Other.setWindowSizeMutator width height (cached world w) := by
    simp only [Other.setWindowSize]; rw [cached_updateCachedState]; simp
  have hwin : cached (Windows.setWindowSize os world (some w) width height) w
      = Windows.setWindowSizeMutator width height (cached world w) := by
    rw [Windows.cached_setWindowSize]; simp
  rw [ho, hwin]
  unfold Other.setWindowSizeMutator Windows.setWindowSizeMutator
  refine ⟨?_, ?_, ?_, ?_, ?_, ?_, ?_, ?_, rfl, rfl⟩ <;>
    by_cases hw : width > 0 <;> by_cases hh : height > 0 <;>
      by_cases hs : (cached world w).State = WindowStateUnknown <;>
      by_cases hW : (cached world w).Width > 0 <;> by_cases hH : (cached world w).Height > 0 <;>
      simp [hw, hh, hs, hW, hH, not_le.mpr, le_of_not_gt]

/-- C4: when the window is realised, every query succeeds (the rectangle, the
placement, the monitor and the monitor information are obtained, and the style
query returns a style, which the code tells from the failure value 0 of
`GetWindowLongPtrW`), the window rectangle equals the nearest monitor's
rectangle, and the style has none of the overlapped-window decoration bits
(style & 0x00CF0000 = 0), the State `getWindowState` returns is Fullscreen,
whatever the show command is. -/
theorem undecorated_monitor_sized_is_fullscreen (os : OS) (world : World) (w : Nat)
    (r : rect) (showCmd : Nat)
    (hwnd : (world.heap w).window ≠ 0)
    (hrect : os.getWindowRect (world.heap w).window = some r)
    (hplacement : os.getWindowPlacement (world.heap w).window = some showCmd)
    (hnonzero : os.getWindowLongPtr (world.heap w).window (Windows.toUintptr (-16)) ≠ 0)
    (hstyle : os.getWindowLongPtr (world.heap w).window (Windows.toUintptr (-16))
      &&& 0x00CF0000 = 0)
    (hmonitor : os.monitorFromWindow (world.heap w).window 2 ≠ 0)
    (hinfo : os.getMonitorInfo (os.monitorFromWindow (world.heap w).window 2) = some r) :
    (Windows.getWindowState os world w).2.State = WindowStateFullscreen := by
  rw [Windows.getWindowState_realized os world w hwnd]
  have hmonitor2 : os.monitorFromWindow (world.heap w).window Windows.monitorDefaultToNearest ≠ 0 :=
    hmonitor
  have hinfo2 : os.getMonitorInfo
      (os.monitorFromWindow (world.heap w).window Windows.monitorDefaultToNearest) = some r := hinfo
  have hnonzero2 : os.getWindowLongPtr (world.heap w).window (Windows.toUintptr Windows.gwlStyle)
      ≠ 0 := hnonzero
  have hstyle2 : os.getWindowLongPtr (world.heap w).window (Windows.toUintptr Windows.gwlStyle)
      &&& Windows.wsOverlappedWindow = 0 := hstyle
  have hsc : Windows.showCmdState showCmd ≠ WindowStateFullscreen := by
    unfold Windows.showCmdState; split_ifs <;> decide
  simp [Windows.queryWindowState, hrect, hplacement, hsc, hnonzero2, hstyle2, hmonitor2, hinfo2]

/-- Witness of C4: a popup window that fills its monitor. -/
theorem undecorated_monitor_sized_is_fullscreen_witness :
    (Windows.getWindowState sampleOS sampleWorld 1).2.State = WindowStateFullscreen :=
  undecorated_monitor_sized_is_fullscreen sampleOS sampleWorld 1
    { Left := 0, Top := 0, Right := 1920, Bottom := 1080 } 1
    (by decide) (by decide) (by decide) (by decide) (by decide) (by decide) (by decide)

/-- C5: on a realised window whose style has any overlapped-window decoration
bit set (style & 0x00CF0000 ≠ 0), the State `getWindowState` returns is never
Fullscreen, whatever the window and monitor rectangles are; it is Maximized for
show command 3, Minimized for 2 or 7, Normal for every other show command, and
Normal when the placement query fails. -/
theorem decorated_follows_show_command (os : OS) (world : World) (w : Nat)
    (hwnd : (world.heap w).window ≠ 0)
    (hstyle : os.getWindowLongPtr (world.heap w).window (Windows.toUintptr (-16))
      &&& 0x00CF0000 ≠ 0) :
    (Windows.getWindowState os world w).2.State ≠ WindowStateFullscreen ∧
      (Windows.getWindowState os world w).2.State =
        (match os.getWindowPlacement (world.heap w).window with
          | some showCmd =>
            if showCmd = 3 then WindowStateMaximized
            else if showCmd = 2 ∨ showCmd = 7 then WindowStateMinimized
            else WindowStateNormal
          | none => WindowStateNormal) := by
  rw [Windows.getWindowState_realized os world w hwnd]
  have hstyle2 : ¬ (os.getWindowLongPtr (world.heap w).window (Windows.toUintptr Windows.gwlStyle)
      &&& Windows.wsOverlappedWindow = 0) := hstyle
  have key : (Windows.queryWindowState os (world.heap w).window).State =
      (match os.getWindowPlacement (world.heap w).window with
        | some showCmd =>
          if showCmd = 3 then WindowStateMaximized
          else if showCmd = 2 ∨ showCmd = 7 then WindowStateMinimized
          else WindowStateNormal
        | none => WindowStateNormal) := by
    unfold Windows.queryWindowState
    cases hr : os.getWindowRect (world.heap w).window <;>
      cases hp : os.getWindowPlacement (world.heap w).window <;>
      simp [hstyle2, Windows.showCmdState, Windows.swShowMaximized, Windows.swShowMinimized,
        Windows.swShowMinNoActive]
  refine ⟨?_, key⟩
  rw [key]
  cases os.getWindowPlacement (world.heap w).window with
  | none => decide
  | some showCmd => simp only []; split_ifs <;> decide

/-- Witness of C5: a maximised decorated window that fills its monitor. -/
theorem decorated_follows_show_command_witness :
    decoratedOS.getWindowRect (sampleWorld.heap 1).window
        = decoratedOS.getMonitorInfo
            (decoratedOS.monitorFromWindow (sampleWorld.heap 1).window 2) ∧
      (Windows.getWindowState decoratedOS sampleWorld 1).2.State ≠ WindowStateFullscreen ∧
      (Windows.getWindowState decoratedOS sampleWorld 1).2.State = WindowStateMaximized :=
  ⟨by decide,
    (decorated_follows_show_command decoratedOS sampleWorld 1 (by decide) (by decide)).1,
    (decorated_follows_show_command decoratedOS sampleWorld 1 (by decide) (by decide)).2⟩

/-- C6, as stated, fails: after `setWindowPosition(w, 10, 20)` and
`setWindowSize(w, 800, 600)` on the fallback build the cache holds
(10, 20, 800, 600, Normal), and `getWindowState(w)` does not return it: it
returns State Unknown with zero geometry although something has been set. -/
theorem fallback_getWindowState_is_not_the_cache :
    cached (Other.setWindowSize (Other.setWindowPosition sampleWorld (some 1) 10 20)
        (some 1) 800 600) 1
        = { X := 10, Y := 20, Width := 800, Height := 600, State := WindowStateNormal } ∧
      Other.getWindowState (some 1)
        ≠ cached (Other.setWindowSize (Other.setWindowPosition sampleWorld (some 1) 10 20)
            (some 1) 800 600) 1 ∧
      (Other.getWindowState (some 1)).State = WindowStateUnknown := by
  decide

/-- C6, amended: on the fallback build `getWindowState` returns State Unknown
with X, Y, Width and Height all zero for every window and whatever the cache of
that window holds, also after setter calls that filled the cache: the setters
update the cache and `getWindowState` does not read it. -/
theorem fallback_getWindowState_unknown (world : World) (w : Nat) (x y width height : Int) :
    Other.getWindowState none
        = { X := 0, Y := 0, Width := 0, Height := 0, State := WindowStateUnknown } ∧
      Other.getWindowState (some w)
        = { X := 0, Y := 0, Width := 0, Height := 0, State := WindowStateUnknown } ∧
      (cached (Other.setWindowSize (Other.setWindowPosition world (some w) x y)
        (some w) width height) w).X = x ∧
      (cached (Other.setWindowSize (Other.setWindowPosition world (some w) x y)
        (some w) width height) w).Y = y := by
  refine ⟨rfl, rfl, ?_, ?_⟩
  · simp only [Other.setWindowSize, Other.setWindowPosition, cached_updateCachedState, if_true]
    unfold Other.setWindowSizeMutator Other.setWindowPositionMutator
    by_cases hs : (cached world w).State = WindowStateUnknown <;>
      by_cases hw : width > 0 <;> by_cases hh : height > 0 <;> simp [hs, hw, hh]
  · simp only [Other.setWindowSize, Other.setWindowPosition, cached_updateCachedState, if_true]
    unfold Other.setWindowSizeMutator Other.setWindowPositionMutator
    by_cases hs : (cached world w).State = WindowStateUnknown <;>
      by_cases hw : width > 0 <;> by_cases hh : height > 0 <;> simp [hs, hw, hh]

/-- C7: for every cached state and every position/size-changed payload with the
move-suppressed flag (0x0002) set, the resize-suppressed flag (0x0001) clear and
cx > 0, cy > 0, the handler leaves the cached X and Y unchanged and sets
Width = cx and Height = cy; the trampoline applies exactly this handler to the
window registered under the handle the message is delivered to. -/
theorem windowPosChanged_move_suppressed (os : OS) (world : World) (w lparam : Nat)
    (hpayload : lparam ≠ 0)
    (hmove : (os.windowPosAt lparam).flags &&& 0x0002 ≠ 0)
    (hsize : (os.windowPosAt lparam).flags &&& 0x0001 = 0)
    (hcx : (os.windowPosAt lparam).cx > 0) (hcy : (os.windowPosAt lparam).cy > 0) :
    (cached (Windows.handleWindowPosChanged os world w lparam) w).X = (cached world w).X ∧
      (cached (Windows.handleWindowPosChanged os world w lparam) w).Y = (cached world w).Y ∧
      (cached (Windows.handleWindowPosChanged os world w lparam) w).Width
        = (os.windowPosAt lparam).cx ∧
      (cached (Windows.handleWindowPosChanged os world w lparam) w).Height
        = (os.windowPosAt lparam).cy ∧
      ∀ hwnd wparam : Nat, Windows.registryGet world.windowSubclass hwnd = some w →
        cached (Windows.windowProc os world hwnd 0x0047 wparam lparam).1 w
          = cached (Windows.handleWindowPosChanged os world w lparam) w := by
  have hmove2 : ¬ ((os.windowPosAt lparam).flags &&& Windows.swpNoMove = 0) := hmove
  have hsize2 : (os.windowPosAt lparam).flags &&& Windows.swpNoSize = 0 := hsize
  have hc : cached (Windows.handleWindowPosChanged os world w lparam) w
      = Windows.windowPosChangedMutator (os.windowPosAt lparam) (cached world w) := by
    simp only [Windows.handleWindowPosChanged, if_neg hpayload]
    rw [cached_updateCachedState]; simp
  refine ⟨?_, ?_, ?_, ?_, ?_⟩
  · rw [hc]; unfold Windows.windowPosChangedMutator
    by_cases hs : (cached world w).State = WindowStateUnknown <;>
      simp [hmove2, hsize2, hcx, hcy, hs]
  · rw [hc]; unfold Windows.windowPosChangedMutator
    by_cases hs : (cached world w).State = WindowStateUnknown <;>
      simp [hmove2, hsize2, hcx, hcy, hs]
  · rw [hc]; unfold Windows.windowPosChangedMutator
    by_cases hs : (cached world w).State = WindowStateUnknown <;>
      simp [hmove2, hsize2, hcx, hcy, hs]
  · rw [hc]; unfold Windows.windowPosChangedMutator
    by_cases hs : (cached world w).State = WindowStateUnknown <;>
      simp [hmove2, hsize2, hcx, hcy, hs]
  · intro hwnd wparam hreg
    have h47 : (0x0047 : Nat) = Windows.wmWindowPosChanged := rfl
    have hne : ¬ (Windows.wmWindowPosChanged = Windows.wmSize) := by decide
    simp only [Windows.windowProc, hreg, h47, if_true, if_neg hne]
    rw [Windows.cached_forwardWindowMessage]

/-- Witness of C7: a window at (3, 4) receives a resize to 800 by 600 with the
move suppressed (the payload also carries x = 11, y = 22, which are ignored). -/
theorem windowPosChanged_move_suppressed_witness :
    (cached (Windows.handleWindowPosChanged sampleOS
        (Other.setWindowPosition sampleWorld (some 1) 3 4) 1 0x2000) 1).X = 3 ∧
      (cached (Windows.handleWindowPosChanged sampleOS
        (Other.setWindowPosition sampleWorld (some 1) 3 4) 1 0x2000) 1).Y = 4 ∧
      (cached (Windows.handleWindowPosChanged sampleOS
        (Other.setWindowPosition sampleWorld (some 1) 3 4) 1 0x2000) 1).Width = 800 ∧
      (cached (Windows.handleWindowPosChanged sampleOS
        (Other.setWindowPosition sampleWorld (some 1) 3 4) 1 0x2000) 1).Height = 600 :=
  have h := windowPosChanged_move_suppressed sampleOS
    (Other.setWindowPosition sampleWorld (some 1) 3 4) 1 0x2000
    (by decide) (by decide) (by decide) (by decide) (by decide)
  ⟨h.1, h.2.1, h.2.2.1, h.2.2.2.1⟩

/-- C10: for every payload `lparam` the move handler sets the cached X to bits
0-15 and Y to bits 16-31 of `lparam`, each read as a sign-extended 16-bit two's
complement integer; so for x, y in [-32768, 32767] a payload packing
(x mod 2^16) | ((y mod 2^16) << 16), with any higher bits, yields X = x and
Y = y.  The handler promotes State Unknown to Normal and leaves Width, Height
and any other State unchanged. -/
theorem move_message_decoding (world : World) (w : Nat) (x y : Int) (high : Nat)
    (hx : -32768 ≤ x ∧ x ≤ 32767) (hy : -32768 ≤ y ∧ y ≤ 32767) :
    (∀ lparam : Nat,
        (cached (Windows.handleMoveMessage world w lparam) w).X
            = (if lparam % 65536 < 32768 then (lparam % 65536 : Int)
                else (lparam % 65536 : Int) - 65536) ∧
          (cached (Windows.handleMoveMessage world w lparam) w).Y
            = (if lparam / 65536 % 65536 < 32768 then (lparam / 65536 % 65536 : Int)
                else (lparam / 65536 % 65536 : Int) - 65536) ∧
          (cached (Windows.handleMoveMessage world w lparam) w).Width = (cached world w).Width ∧
          (cached (Windows.handleMoveMessage world w lparam) w).Height = (cached world w).Height ∧
          (cached (Windows.handleMoveMessage world w lparam) w).State
            = (if (cached world w).State = WindowStateUnknown then WindowStateNormal
                else (cached world w).State)) ∧
      (cached (Windows.handleMoveMessage world w
          ((x % 65536).toNat ||| (y % 65536).toNat <<< 16 ||| high <<< 32)) w).X = x ∧
      (cached (Windows.handleMoveMessage world w
          ((x % 65536).toNat ||| (y % 65536).toNat <<< 16 ||| high <<< 32)) w).Y = y := by
  have hc : ∀ lparam, cached (Windows.handleMoveMessage world w lparam) w
      = Windows.moveMessageMutator (Windows.int16 (Windows.uint16 (lparam &&& 0xFFFF)))
          (Windows.int16 (Windows.uint16 ((lparam >>> 16) &&& 0xFFFF))) (cached world w) := by
    intro lparam
    simp only [Windows.handleMoveMessage]
    rw [cached_updateCachedState]; simp
  have hX : ∀ a b s, (Windows.moveMessageMutator a b s).X = a := by
    intro a b s
    by_cases hs : s.State = WindowStateUnknown <;> simp [Windows.moveMessageMutator, hs]
  have hY : ∀ a b s, (Windows.moveMessageMutator a b s).Y = b := by
    intro a b s
    by_cases hs : s.State = WindowStateUnknown <;> simp [Windows.moveMessageMutator, hs]
  have ha : (x % 65536).toNat < 65536 := by omega
  have hb : (y % 65536).toNat < 65536 := by omega
  refine ⟨?_, ?_, ?_⟩
  · intro lparam
    rw [hc, hX, hY, Windows.low_word, Windows.high_word]
    refine ⟨?_, ?_, ?_, ?_, ?_⟩
    · unfold Windows.int16 Windows.uint16
      split_ifs <;> omega
    · unfold Windows.int16 Windows.uint16
      split_ifs <;> omega
    · by_cases hs : (cached world w).State = WindowStateUnknown <;>
        simp [Windows.moveMessageMutator, hs]
    · by_cases hs : (cached world w).State = WindowStateUnknown <;>
        simp [Windows.moveMessageMutator, hs]
    · by_cases hs : (cached world w).State = WindowStateUnknown <;>
        simp [Windows.moveMessageMutator, hs]
  · rw [hc, hX, Windows.low_word, Windows.pack_eq_add _ _ _ ha hb]
    have : (4294967296 * high + (65536 * (y % 65536).toNat + (x % 65536).toNat)) % 65536
        = (x % 65536).toNat := by omega
    rw [this]
    exact Windows.int16_roundtrip x hx.1 hx.2
  · rw [hc, hY, Windows.high_word, Windows.pack_eq_add _ _ _ ha hb]
    have : (4294967296 * high + (65536 * (y % 65536).toNat + (x % 65536).toNat)) / 65536 % 65536
        = (y % 65536).toNat := by omega
    rw [this]
    exact Windows.int16_roundtrip y hy.1 hy.2

/-- Witness of C10: the position (-5, 300) packed below the high bits 0xABCD. -/
theorem move_message_decoding_witness :
    (cached (Windows.handleMoveMessage sampleWorld 1
        ((((-5 : Int) % 65536).toNat) ||| ((300 : Int) % 65536).toNat <<< 16 ||| 0xABCD <<< 32))
        1).X = -5 ∧
      (cached (Windows.handleMoveMessage sampleWorld 1
        ((((-5 : Int) % 65536).toNat) ||| ((300 : Int) % 65536).toNat <<< 16 ||| 0xABCD <<< 32))
        1).Y = 300 :=
  (move_message_decoding sampleWorld 1 (-5) 300 0xABCD (by decide) (by decide)).2

/-- C9: install is idempotent.  For a window object with a non-zero native
handle, no hook installed yet and a handler swap that succeeds (the native
window exists, and its previous handler is non-zero or no error is pending),
calling `ensureWindowHook` twice leaves exactly the world one call leaves: one
registry entry for the handle, naming this window object; the installed flag
set; the saved handle equal to the native handle; the saved original handler
equal to the handler in place before the first call; the trampoline installed
on the native window; and exactly one handler swap issued. -/
theorem ensureWindowHook_idempotent (os : OS) (world : World) (w previous : Nat)
    (hwindow : (world.heap w).window ≠ 0)
    (hfresh : (world.heap w).hookInstalled = false)
    (hproc : world.wndProcs (world.heap w).window = some previous)
    (hswap : previous ≠ 0 ∨ world.lastError = 0) :
    Windows.ensureWindowHook os (Windows.ensureWindowHook os world (some w)) (some w)
        = Windows.ensureWindowHook os world (some w) ∧
      Windows.registryCount (Windows.ensureWindowHook os world (some w)).windowSubclass
        (world.heap w).window = 1 ∧
      Windows.registryGet (Windows.ensureWindowHook os world (some w)).windowSubclass
        (world.heap w).window = some w ∧
      ((Windows.ensureWindowHook os world (some w)).heap w).hookInstalled = true ∧
      ((Windows.ensureWindowHook os world (some w)).heap w).hwnd = (world.heap w).window ∧
      ((Windows.ensureWindowHook os world (some w)).heap w).origWndProc = previous ∧
      (Windows.ensureWindowHook os world (some w)).wndProcs (world.heap w).window
        = some os.windowProcCallback ∧
      (Windows.ensureWindowHook os world (some w)).calls
        = world.calls ++
            [OsCall.SetWindowLongPtrW (world.heap w).window 0xFFFFFFFC os.windowProcCallback] := by
  have hnot : ¬ (previous = 0 ∧ ¬ world.lastError = 0) := by
    rintro ⟨h1, h2⟩
    rcases hswap with h | h
    · exact h h1
    · exact h2 h
  have hidx : Windows.toUintptrIndex Windows.gwlWndProc = 0xFFFFFFFC := by decide
  have hinst : ((Windows.ensureWindowHook os world (some w)).heap w).hookInstalled = true := by
    simp [Windows.ensureWindowHook, Windows.callSetWindowLongPtr, hwindow, hfresh, hproc, hnot]
  have hwin : ((Windows.ensureWindowHook os world (some w)).heap w).window ≠ 0 := by
    rw [Windows.window_ensureWindowHook]; exact hwindow
  refine ⟨?_, ?_, ?_, hinst, ?_, ?_, ?_, ?_⟩
  · generalize Windows.ensureWindowHook os world (some w) = once at hinst hwin
    simp [Windows.ensureWindowHook, hwin, hinst]
  · simp [Windows.ensureWindowHook, Windows.callSetWindowLongPtr, hwindow, hfresh, hproc, hnot,
      Windows.registryCount_registrySet]
  · simp [Windows.ensureWindowHook, Windows.callSetWindowLongPtr, hwindow, hfresh, hproc, hnot,
      Windows.registryGet_registrySet]
  · simp [Windows.ensureWindowHook, Windows.callSetWindowLongPtr, hwindow, hfresh, hproc, hnot]
  · simp [Windows.ensureWindowHook, Windows.callSetWindowLongPtr, hwindow, hfresh, hproc, hnot]
  · simp [Windows.ensureWindowHook, Windows.callSetWindowLongPtr, hwindow, hfresh, hproc, hnot]
  · simp [Windows.ensureWindowHook, Windows.callSetWindowLongPtr, hwindow, hfresh, hproc, hnot,
      hidx]

/-- Witness of C9 on the window object at address 1, whose native window 0x5A0
has the handler 0x7000 before the first call. -/
theorem ensureWindowHook_idempotent_witness :
    (Windows.ensureWindowHook sampleOS (Windows.ensureWindowHook sampleOS sampleWorld (some 1))
        (some 1)).calls = [OsCall.SetWindowLongPtrW 0x5A0 0xFFFFFFFC 0x9000] ∧
      ((Windows.ensureWindowHook sampleOS (Windows.ensureWindowHook sampleOS sampleWorld (some 1))
        (some 1)).heap 1).origWndProc = 0x7000 ∧
      Windows.registryCount
        (Windows.ensureWindowHook sampleOS (Windows.ensureWindowHook sampleOS sampleWorld (some 1))
          (some 1)).windowSubclass 0x5A0 = 1 := by
  have h := ensureWindowHook_idempotent sampleOS sampleWorld 1 0x7000
    (by decide) (by decide) (by decide) (by decide)
  rw [h.1]
  exact ⟨h.2.2.2.2.2.2.2, h.2.2.2.2.2.1, h.2.1⟩

end WebviewGo
